import Mathlib

/-!
Verification development for the logo-generator rendering engine.

The Python source (`logo_generator.py`) is shallowly embedded here:
* machine floats become exact rationals (`ℚ`);
* transcendental functions (`math.cos`, `math.sin`, `math.sqrt`, `math.pi`)
  are an uninterpreted `TrigOracle` parameter, since no verified claim
  depends on their concrete values beyond the unit-circle identity, which
  is taken as a hypothesis where needed;
* the ambient random source (Python's `random` module) is an explicitly
  threaded stream of rationals in `[0,1)` (`RNG`), matching the semantics
  of a seeded generator;
* every `gizeh` element whose `.draw(surface)` method is invoked becomes
  one `DrawOp` appended to the canvas trace, in invocation order, so the
  trace order is exactly the paint order.
-/

set_option maxRecDepth 4000

abbrev Color := List ℚ

abbrev Point := ℚ × ℚ

/-- Uninterpreted stand-in for the float math library: `cos`/`sin`
take radians, `pi` stands for `math.pi`, `sqrt` for `math.sqrt`. -/
structure TrigOracle where
  cos : ℚ → ℚ
  sin : ℚ → ℚ
  pi : ℚ
  sqrt : ℚ → ℚ

/-- `math.radians(x)`. -/
def radians (T : TrigOracle) (x : ℚ) : ℚ := x * T.pi / 180

/-- Python `int(q)` on a float: truncation toward zero. -/
def pyTrunc (q : ℚ) : ℤ := if 0 ≤ q then ⌊q⌋ else -⌊-q⌋

/-- Python `a % b` on floats (`b > 0` in all uses): `a - b*⌊a/b⌋`. -/
def pyMod (a b : ℚ) : ℚ := a - b * ⌊a / b⌋

/-- Python `range(a, b, step)` for a positive `step`. -/
def pyRange (a b : ℤ) (step : ℕ) : List ℤ :=
  (List.range (((b - a).toNat + step - 1) / step)).map (fun i => a + (step : ℤ) * i)

/-- Python `range(n, 0, -1)`: the list `[n, n-1, ..., 1]`. -/
def descRange (n : ℕ) : List ℕ := (List.range n).map (fun i => n - i)

/-- The injected random-number stream: an infinite sequence of rationals in
`[0,1)` plus a cursor.  A fixed seed determines the whole stream, so two
renders that start from equal `RNG` values make identical random draws. -/
structure RNG where
  stream : ℕ → ℚ
  pos : ℕ

/-- `random.random()`: consume one stream value. -/
def RNG.next (g : RNG) : ℚ × RNG := (g.stream g.pos, ⟨g.stream, g.pos + 1⟩)

/-- `random.uniform(a, b)`. -/
def pyUniform (a b : ℚ) (g : RNG) : ℚ × RNG :=
  let p := g.next
  (a + (b - a) * p.1, p.2)

/-- `random.choice(l)` (with a default for the empty list, never hit by the
pipeline's call sites). -/
def pyChoice {α : Type} (l : List α) (d : α) (g : RNG) : α × RNG :=
  let p := g.next
  (l.getD (⌊p.1 * l.length⌋).toNat d, p.2)

/-- `random.randint(a, b)` (both ends inclusive). -/
def pyRandint (a b : ℤ) (g : RNG) : ℤ × RNG :=
  let p := g.next
  (a + ⌊p.1 * ((b : ℚ) - (a : ℚ) + 1)⌋, p.2)

/-- `random.sample(l, k)`: `k` draws without replacement. -/
def pySample {α : Type} : ℕ → List α → RNG → List α × RNG
  | 0, _, g => ([], g)
  | _ + 1, [], g => ([], g)
  | k + 1, x :: xs, g =>
    let p := g.next
    let idx := (⌊p.1 * (x :: xs).length⌋).toNat
    let chosen := (x :: xs).getD idx x
    let rest := (x :: xs).take idx ++ (x :: xs).drop (idx + 1)
    let r := pySample k rest p.2
    (chosen :: r.1, r.2)

/-- Run `n` iterations of a random-consuming loop body, concatenating the
draw traces in iteration order. -/
def iterRNG {β : Type} (body : RNG → List β × RNG) : ℕ → RNG → List β × RNG
  | 0, g => ([], g)
  | n + 1, g =>
    let r := body g
    let rest := iterRNG body n r.2
    (r.1 ++ rest.1, rest.2)

/-- One `gizeh` element draw call.  Field order follows the `gizeh`
constructor keywords used in the source. -/
inductive DrawOp where
  | circle (r : ℚ) (xy : Point) (fill : Option Color) (stroke : Option Color)
      (strokeWidth : ℚ)
  | polyline (points : List Point) (xy : Option Point) (fill : Option Color)
      (stroke : Option Color) (strokeWidth : ℚ) (closePath : Bool)
  | rectangle (lx ly : ℚ) (xy : Point) (fill : Option Color)
  | sq (l : ℚ) (xy : Point) (fill : Option Color) (angle : ℚ)
  | textOp (chars : List Char) (fontfamily : String) (fontsize : ℚ) (xy : Point)
      (fill : Color) (angle : ℚ) (fontweight : String)
deriving DecidableEq

/-- `points + [points[0]]`: re-close a polygon. -/
def closeShape (pts : List Point) : List Point := pts ++ [pts.getD 0 (0, 0)]

namespace ColorPalette

/-- `ColorPalette.hsv_to_rgb` from the source (Python `int()` truncation and
`i %= 6` Euclidean remainder made explicit). -/
def hsv_to_rgb (h s v : ℚ) : Color :=
  let i0 := pyTrunc (h * 6)
  let f := h * 6 - (i0 : ℚ)
  let p := v * (1 - s)
  let q := v * (1 - f * s)
  let t := v * (1 - (1 - f) * s)
  let i := i0 % 6
  if i = 0 then [v, t, p]
  else if i = 1 then [q, v, p]
  else if i = 2 then [p, v, t]
  else if i = 3 then [p, q, v]
  else if i = 4 then [t, p, v]
  else [v, p, q]

/-- `HARMONY_RULES.get(rule, HARMONY_RULES["triadic"])` applied to `h`:
the hue-offset lists of the source dictionary, unknown rule falling back
to the triadic offsets. -/
def harmonyOffsets (rule : String) (h : ℚ) : List ℚ :=
  if rule = "complementary" then [pyMod (h + 1/2) 1]
  else if rule = "triadic" then [pyMod (h + 1/3) 1, pyMod (h + 2/3) 1]
  else if rule = "analogous" then [pyMod (h + 1/12) 1, pyMod (h - 1/12) 1]
  else if rule = "split_complementary" then [pyMod (h + 5/12) 1, pyMod (h + 7/12) 1]
  else if rule = "tetradic" then [pyMod (h + 1/4) 1, pyMod (h + 1/2) 1, pyMod (h + 3/4) 1]
  else if rule = "monochromatic" then [h]
  else [pyMod (h + 1/3) 1, pyMod (h + 2/3) 1]

/-- Loop body of `generate_harmonious`: perturb saturation and value for
one hue and convert. -/
def perturbColor (sat val h : ℚ) (g : RNG) : Color × RNG :=
  let ps := pyUniform (-(1/10)) (1/10) g
  let pv := pyUniform (-(1/10)) (1/10) ps.2
  (hsv_to_rgb h (max 0 (min 1 (sat + ps.1))) (max 0 (min 1 (val + pv.1))), pv.2)

/-- The `for h in hues` loop of `generate_harmonious`. -/
def perturbAll (sat val : ℚ) : List ℚ → RNG → List Color × RNG
  | [], g => ([], g)
  | h :: hs, g =>
    let c := perturbColor sat val h g
    let rest := perturbAll sat val hs c.2
    (c.1 :: rest.1, rest.2)

/-- `ColorPalette.generate_harmonious`. -/
def generate_harmonious (baseHue : Option ℚ) (rule : String) (sat val : ℚ)
    (g : RNG) : List Color × RNG :=
  let bh := match baseHue with
    | none => g.next
    | some h => (h, g)
  perturbAll sat val (bh.1 :: harmonyOffsets rule bh.1) bh.2

/-- The fixed `"corporate"` preset palette. -/
def presetCorporate : List Color :=
  [[1/10, 2/10, 5/10], [2/10, 4/10, 7/10], [8/10, 8/10, 17/20], [19/20, 19/20, 19/20]]

/-- `PRESET_PALETTES` as a partial lookup table. -/
def PRESET_PALETTES (name : String) : Option (List Color) :=
  if name = "sunset" then
    some [[98/100, 4/10, 2/10], [95/100, 6/10, 1/10], [85/100, 2/10, 3/10], [4/10, 1/10, 3/10]]
  else if name = "ocean" then
    some [[0, 3/10, 6/10], [1/10, 5/10, 8/10], [2/10, 7/10, 9/10], [0, 2/10, 4/10]]
  else if name = "forest" then
    some [[1/10, 4/10, 1/10], [2/10, 6/10, 2/10], [4/10, 7/10, 3/10], [5/100, 3/10, 5/100]]
  else if name = "neon" then
    some [[1, 0, 5/10], [0, 1, 8/10], [5/10, 0, 1], [1, 1, 0]]
  else if name = "pastel" then
    some [[9/10, 7/10, 7/10], [7/10, 9/10, 7/10], [7/10, 7/10, 9/10], [9/10, 9/10, 7/10]]
  else if name = "corporate" then some presetCorporate
  else if name = "retro" then
    some [[9/10, 5/10, 2/10], [7/10, 3/10, 3/10], [3/10, 5/10, 5/10], [9/10, 8/10, 6/10]]
  else if name = "dark_elegance" then
    some [[1/10, 1/10, 15/100], [8/10, 7/10, 4/10], [3/10, 25/100, 3/10], [6/10, 5/10, 3/10]]
  else none

/-- `ColorPalette.get_preset`: unknown name falls back to `"corporate"`. -/
def get_preset (name : String) : List Color :=
  (PRESET_PALETTES name).getD presetCorporate

/-- `ColorPalette.adjust_brightness`. -/
def adjust_brightness (c : Color) (factor : ℚ) : Color :=
  c.map (fun x => min 1 (max 0 (x * factor)))

end ColorPalette

namespace PatternGenerator

/-- `PatternGenerator.draw_dots`. -/
def draw_dots (w h : ℕ) (color : Color) (spacing : ℕ) (radius : ℚ) : List DrawOp :=
  (pyRange 0 ((w : ℤ) + spacing) spacing).flatMap (fun x =>
    (pyRange 0 ((h : ℤ) + spacing) spacing).map (fun y =>
      DrawOp.circle radius ((x : ℚ), (y : ℚ)) (some color) none 0))

/-- `PatternGenerator.draw_lines`: parallel strokes of length
`max(width, height) * 2` in the direction of `angle`. -/
def draw_lines (T : TrigOracle) (w h : ℕ) (color : Color) (spacing : ℕ)
    (strokeWidth : ℚ) (angle : ℚ) : List DrawOp :=
  let rad := radians T angle
  let length : ℤ := (max w h : ℤ) * 2
  (pyRange (-length) length spacing).map (fun offset =>
    DrawOp.polyline
      [((offset : ℚ), 0),
       ((offset : ℚ) + (length : ℚ) * T.cos rad, (length : ℚ) * T.sin rad)]
      none none (some color) strokeWidth false)

/-- `PatternGenerator.draw_grid`. -/
def draw_grid (w h : ℕ) (color : Color) (spacing : ℕ) (strokeWidth : ℚ) :
    List DrawOp :=
  (pyRange 0 ((w : ℤ) + spacing) spacing).map (fun x =>
    DrawOp.polyline [((x : ℚ), 0), ((x : ℚ), (h : ℚ))] none none (some color)
      strokeWidth false)
  ++ (pyRange 0 ((h : ℤ) + spacing) spacing).map (fun y =>
    DrawOp.polyline [(0, (y : ℚ)), ((w : ℚ), (y : ℚ))] none none (some color)
      strokeWidth false)

/-- `PatternGenerator.draw_concentric_circles`. -/
def draw_concentric_circles (cx cy maxRadius : ℚ) (color : Color) (count : ℕ)
    (strokeWidth : ℚ) : List DrawOp :=
  (List.range count).map (fun j =>
    DrawOp.circle (maxRadius * ((j : ℚ) + 1) / count) (cx, cy) none (some color)
      strokeWidth)

/-- One hexagon of `PatternGenerator.draw_hexagon_pattern`. -/
def hexAt (T : TrigOracle) (size : ℚ) (hexHeight : ℚ) (row col : ℤ)
    (color : Color) (strokeWidth : ℚ) : DrawOp :=
  let cx := (col : ℚ) * size * (3/2)
  let cy := (row : ℚ) * hexHeight + ((col % 2 : ℤ) : ℚ) * hexHeight / 2
  let pts := (List.range 6).map (fun i =>
    (cx + size * T.cos (radians T (60 * i)),
     cy + size * T.sin (radians T (60 * i))))
  DrawOp.polyline (closeShape pts) none none (some color) strokeWidth false

/-- `PatternGenerator.draw_hexagon_pattern`. -/
def draw_hexagon_pattern (T : TrigOracle) (w h : ℕ) (color : Color) (size : ℚ)
    (strokeWidth : ℚ) : List DrawOp :=
  let hexHeight := size * T.sqrt 3
  (pyRange (-1) (pyTrunc ((h : ℚ) / hexHeight) + 2) 1).flatMap (fun row =>
    (pyRange (-1) (pyTrunc ((w : ℚ) / (size * (3/2))) + 2) 1).map (fun col =>
      hexAt T size hexHeight row col color strokeWidth))

/-- `PatternGenerator.draw_wave_pattern`. -/
def draw_wave_pattern (T : TrigOracle) (w h : ℕ) (color : Color)
    (amplitude frequency strokeWidth : ℚ) : List DrawOp :=
  (pyRange 0 ((h : ℤ) + 40) 20).flatMap (fun yOff =>
    let pts := (pyRange 0 ((w : ℤ) + 5) 5).map (fun x =>
      ((x : ℚ), (yOff : ℚ) + amplitude * T.sin (frequency * x * 2 * T.pi)))
    if 1 < pts.length then
      [DrawOp.polyline pts none none (some color) strokeWidth false]
    else [])

end PatternGenerator

namespace ShapeFactory

/-- `ShapeFactory.create_star`. -/
def create_star (T : TrigOracle) (pointsCount : ℕ) (outerRadius innerRadius : ℚ)
    (xy : Point) (fill stroke : Option Color) (strokeWidth rotation : ℚ) :
    DrawOp :=
  let pts := (List.range (pointsCount * 2)).map (fun i =>
    let angle := T.pi * i / pointsCount + rotation - T.pi / 2
    let r := if i % 2 = 0 then outerRadius else innerRadius
    (r * T.cos angle, r * T.sin angle))
  DrawOp.polyline (closeShape pts) (some xy) fill stroke strokeWidth true

/-- `ShapeFactory.create_diamond`. -/
def create_diamond (size : ℚ) (xy : Point) (fill stroke : Option Color)
    (strokeWidth : ℚ) : DrawOp :=
  let pts : List Point := [(0, -size), (size * (6/10), 0), (0, size), (-(size * (6/10)), 0)]
  DrawOp.polyline (closeShape pts) (some xy) fill stroke strokeWidth true

end ShapeFactory

namespace TextRenderer

/-- `TextRenderer.render_text`. -/
def render_text (chars : List Char) (xy : Point) (fontsize : ℚ)
    (fontfamily : String) (fill : Color) (angle : ℚ) (fontWeight : String) :
    List DrawOp :=
  [DrawOp.textOp chars fontfamily fontsize xy fill angle fontWeight]

/-- `TextRenderer.render_text_with_shadow`. -/
def render_text_with_shadow (chars : List Char) (xy : Point) (fontsize : ℚ)
    (fontfamily : String) (fill shadowColor : Color) (shadowOffset : Point)
    (angle : ℚ) : List DrawOp :=
  [DrawOp.textOp chars fontfamily fontsize
    (xy.1 + shadowOffset.1, xy.2 + shadowOffset.2) shadowColor angle "normal",
   DrawOp.textOp chars fontfamily fontsize xy fill angle "normal"]

/-- The fixed 8 compass offsets of `render_text_with_outline`. -/
def outlineOffsets : List (ℚ × ℚ) :=
  [(-1, -1), (-1, 1), (1, -1), (1, 1), (-1, 0), (1, 0), (0, -1), (0, 1)]

/-- `TextRenderer.render_text_with_outline`. -/
def render_text_with_outline (chars : List Char) (xy : Point) (fontsize : ℚ)
    (fontfamily : String) (fill outlineColor : Color) (outlineWidth : ℕ)
    (angle : ℚ) : List DrawOp :=
  (outlineOffsets.flatMap (fun dxy =>
    (List.range outlineWidth).map (fun m =>
      DrawOp.textOp chars fontfamily fontsize
        (xy.1 + dxy.1 * ((m : ℚ) + 1), xy.2 + dxy.2 * ((m : ℚ) + 1))
        outlineColor angle "normal")))
  ++ [DrawOp.textOp chars fontfamily fontsize xy fill angle "normal"]

end TextRenderer

namespace EffectsEngine

/-- Per-channel linear interpolation `c1 + (c2 - c1) * t` (Python `zip`
truncates to the shorter list). -/
def lerpColor (c1 c2 : Color) (t : ℚ) : Color :=
  List.zipWith (fun a b => a + (b - a) * t) c1 c2

/-- `EffectsEngine.draw_gradient_background`. -/
def draw_gradient_background (w h : ℕ) (color1 color2 : Color)
    (direction : String) (steps : ℕ) : List DrawOp :=
  (List.range steps).map (fun i =>
    let t := (i : ℚ) / steps
    let color := lerpColor color1 color2 t
    if direction = "vertical" then
      DrawOp.rectangle ((w : ℚ) + 2) ((h : ℚ) / steps + 1)
        ((w : ℚ) / 2, (h : ℚ) * t + ((h : ℚ) / steps + 1) / 2) (some color)
    else if direction = "horizontal" then
      DrawOp.rectangle ((w : ℚ) / steps + 1) ((h : ℚ) + 2)
        ((w : ℚ) * t + ((w : ℚ) / steps + 1) / 2, (h : ℚ) / 2) (some color)
    else if direction = "diagonal" then
      DrawOp.rectangle ((w : ℚ) * 2) ((h : ℚ) / steps + 1)
        ((w : ℚ) / 2, (h : ℚ) * t + ((h : ℚ) / steps + 1) / 2) (some color)
    else
      DrawOp.rectangle ((w : ℚ) + 2) ((h : ℚ) / steps + 1)
        ((w : ℚ) / 2, (h : ℚ) * t + ((h : ℚ) / steps + 1) / 2) (some color))

/-- `EffectsEngine.draw_radial_gradient`. -/
def draw_radial_gradient (center : Point) (maxRadius : ℚ) (color1 color2 : Color)
    (steps : ℕ) : List DrawOp :=
  (descRange steps).map (fun i =>
    let t := (i : ℚ) / steps
    DrawOp.circle (maxRadius * t) center (some (lerpColor color1 color2 (1 - t)))
      none 0)

/-- `EffectsEngine.draw_glow`. -/
def draw_glow (center : Point) (radius : ℚ) (color : Color) (intensity : ℚ)
    (steps : ℕ) : List DrawOp :=
  (descRange steps).map (fun i =>
    let t := (i : ℚ) / steps
    let r := radius + intensity * (1 - t) * 3
    let alpha := t * (3/10)
    let glowColor := if 3 ≤ color.length then color.take 3 ++ [alpha]
      else color ++ [alpha]
    DrawOp.circle r center (some glowColor) none 0)

/-- Loop body of `draw_particle_burst`: one random particle. -/
def particleBody (T : TrigOracle) (center : Point) (maxRadius : ℚ)
    (colors : List Color) (g : RNG) : List DrawOp × RNG :=
  let a := pyUniform 0 (2 * T.pi) g
  let d := pyUniform 10 maxRadius a.2
  let x := center.1 + d.1 * T.cos a.1
  let y := center.2 + d.1 * T.sin a.1
  let r := pyUniform 1 4 d.2
  let c := pyChoice colors [] r.2
  let al := pyUniform (3/10) 1 c.2
  ([DrawOp.circle r.1 (x, y) (some (c.1.take 3 ++ [al.1])) none 0], al.2)

/-- `EffectsEngine.draw_particle_burst`. -/
def draw_particle_burst (T : TrigOracle) (center : Point) (count : ℕ)
    (maxRadius : ℚ) (colors : List Color) (g : RNG) : List DrawOp × RNG :=
  iterRNG (particleBody T center maxRadius colors) count g

/-- `EffectsEngine.draw_lens_flare`. -/
def draw_lens_flare (T : TrigOracle) (center : Point) (size : ℚ) (color : Color) :
    List DrawOp :=
  (descRange 5).map (fun i =>
    DrawOp.circle (size * i / 3) center
      (some (color.take 3 ++ [(1/10) * (i : ℚ) / 5])) none 0)
  ++ (pyRange 0 360 30).map (fun ang =>
    let rad := radians T (ang : ℚ)
    DrawOp.polyline
      [center, (center.1 + size * (3/2) * T.cos rad,
                center.2 + size * (3/2) * T.sin rad)]
      none none (some (color.take 3 ++ [3/20])) 1 false)

end EffectsEngine

namespace LogoTemplate

/-- `LogoTemplate.minimal_circle`. -/
def minimal_circle (w h : ℕ) (colors : List Color) (chars : List Char)
    (fontfamily : String) : List DrawOp :=
  let cx := (w : ℚ) / 2
  let cy := (h : ℚ) / 2
  let radius := (min w h : ℚ) * (3/10)
  [DrawOp.circle radius (cx, cy) (some (colors.getD 0 [])) none 0,
   DrawOp.circle (radius * (7/10)) (cx, cy)
     (some (if 1 < colors.length then colors.getD 1 [] else [1, 1, 1])) none 0,
   DrawOp.textOp chars fontfamily (radius * (1/2)) (cx, cy)
     (if 2 < colors.length then colors.getD 2 [] else [1, 1, 1]) 0 "bold"]

/-- `LogoTemplate.shield_badge`. -/
def shield_badge (w h : ℕ) (colors : List Color) (chars : List Char)
    (fontfamily : String) : List DrawOp :=
  let cx := (w : ℚ) / 2
  let cy := (h : ℚ) / 2
  let size := (min w h : ℚ) * (35/100)
  let pts : List Point :=
    [(0, -size), (size * (8/10), -(size * (5/10))), (size * (8/10), size * (3/10)),
     (0, size), (-(size * (8/10)), size * (3/10)), (-(size * (8/10)), -(size * (5/10)))]
  [DrawOp.polyline (closeShape pts) (some (cx, cy)) (some (colors.getD 0 []))
     (some (if 1 < colors.length then colors.getD 1 [] else [1, 1, 1])) 3 true,
   DrawOp.textOp chars fontfamily (size * (35/100)) (cx, cy)
     (if 2 < colors.length then colors.getD 2 [] else [1, 1, 1]) 0 "bold"]

/-- `LogoTemplate.geometric_abstract`. -/
def geometric_abstract (T : TrigOracle) (w h : ℕ) (colors : List Color)
    (chars : List Char) (fontfamily : String) : List DrawOp :=
  let cx := (w : ℚ) / 2
  let cy := (h : ℚ) / 2
  let size := (min w h : ℚ) * (25/100)
  (List.range 3).map (fun (i : ℕ) =>
    let angle := (i : ℚ) * 2 * T.pi / 3
    let x := cx + size * (3/10) * T.cos angle
    let y := cy + size * (3/10) * T.sin angle
    let color := colors.getD (i % colors.length) []
    DrawOp.circle (size * (1/2)) (x, y) (some (color.take 3 ++ [7/10])) none 0)
  ++ (if chars ≠ [] then
    [DrawOp.textOp chars fontfamily (size * (4/10)) (cx, cy + size * (9/10))
      (colors.getD 0 []) 0 "bold"]
  else [])

/-- `LogoTemplate.monogram`: note the drawn text run is `text[:2]`. -/
def monogram (w h : ℕ) (colors : List Color) (chars : List Char)
    (fontfamily : String) : List DrawOp :=
  let cx := (w : ℚ) / 2
  let cy := (h : ℚ) / 2
  let size := (min w h : ℚ) * (35/100)
  let pts : List Point := [(0, -size), (size, 0), (0, size), (-size, 0)]
  [DrawOp.polyline (closeShape pts) (some (cx, cy)) (some (colors.getD 0 []))
     none 0 true,
   DrawOp.polyline (closeShape pts) (some (cx, cy)) none
     (some (if 1 < colors.length then colors.getD 1 [] else [1, 1, 1])) 2 true,
   DrawOp.textOp (chars.take 2) fontfamily (size * (7/10)) (cx, cy)
     (if 2 < colors.length then colors.getD 2 [] else [1, 1, 1]) 0 "bold"]

/-- `LogoTemplate.tech_hexagon`. -/
def tech_hexagon (T : TrigOracle) (w h : ℕ) (colors : List Color)
    (chars : List Char) (fontfamily : String) : List DrawOp :=
  let cx := (w : ℚ) / 2
  let cy := (h : ℚ) / 2
  let size := (min w h : ℚ) * (32/100)
  let pts := (List.range 6).map (fun i =>
    (size * T.cos (radians T (60 * i - 30)), size * T.sin (radians T (60 * i - 30))))
  let innerPts := (List.range 6).map (fun i =>
    (size * (7/10) * T.cos (radians T (60 * i - 30)),
     size * (7/10) * T.sin (radians T (60 * i - 30))))
  let strokeC : Color := if 1 < colors.length then colors.getD 1 [] else [1, 1, 1]
  [DrawOp.polyline (closeShape pts) (some (cx, cy)) (some (colors.getD 0 []))
     none 0 true,
   DrawOp.polyline (closeShape innerPts) (some (cx, cy)) none (some strokeC) 2 true]
  ++ (List.range 6).map (fun i =>
    DrawOp.polyline [innerPts.getD i (0, 0), pts.getD i (0, 0)] (some (cx, cy))
      none (some strokeC) 1 false)
  ++ [DrawOp.textOp chars fontfamily (size * (35/100)) (cx, cy)
       (if 2 < colors.length then colors.getD 2 [] else [1, 1, 1]) 0 "bold"]

/-- `LogoTemplate.circular_badge`. -/
def circular_badge (T : TrigOracle) (w h : ℕ) (colors : List Color)
    (chars : List Char) (fontfamily : String) : List DrawOp :=
  let cx := (w : ℚ) / 2
  let cy := (h : ℚ) / 2
  let radius := (min w h : ℚ) * (35/100)
  let dotColor : Color := if 2 < colors.length then colors.getD 2 [] else [1, 1, 1]
  [DrawOp.circle radius (cx, cy) (some (colors.getD 0 [])) none 0,
   DrawOp.circle (radius * (85/100)) (cx, cy) none
     (some (if 1 < colors.length then colors.getD 1 [] else [1, 1, 1])) 2,
   DrawOp.circle (radius * (75/100)) (cx, cy)
     (some (if 1 < colors.length then colors.getD 1 []
            else [2/10, 2/10, 2/10])) none 0]
  ++ (List.range 12).map (fun i =>
    let angle := radians T (30 * i)
    DrawOp.circle 3 (cx + radius * (8/10) * T.cos angle,
                     cy + radius * (8/10) * T.sin angle) (some dotColor) none 0)
  ++ [ShapeFactory.create_star T 5 (radius * (3/10)) (radius * (15/100)) (cx, cy)
       (some (if 2 < colors.length then colors.getD 2 [] else [1, 1, 1])) none 0 0,
      DrawOp.textOp chars fontfamily (radius * (2/10))
        (cx, cy + radius * (55/100)) (colors.getD 0 []) 0 "bold"]

end LogoTemplate

namespace LogoGenerator

/-- The recognized configuration mapping.  Each field is `Option`-valued:
`none` models an absent dictionary key, so `config.get(key, default)`
becomes `field.getD default` at each call site, with the source's
per-call-site defaults. -/
structure Config where
  bg_color : Option Color := none
  colors : Option (List Color) := none
  template : Option String := none
  pattern : Option String := none
  effects : Option (List String) := none
  text : Option (List Char) := none
  subtitle : Option (List Char) := none
  fontfamily : Option String := none
  fontsize : Option ℚ := none
  text_effect : Option String := none
  extra_shapes : Option Bool := none
  gradient_direction : Option String := none
deriving DecidableEq

/-- `LogoGenerator.AVAILABLE_TEMPLATES`. -/
def AVAILABLE_TEMPLATES : List String :=
  ["minimal_circle", "shield_badge", "geometric_abstract",
   "monogram", "tech_hexagon", "circular_badge"]

/-- `LogoGenerator.AVAILABLE_PATTERNS`. -/
def AVAILABLE_PATTERNS : List String :=
  ["dots", "lines", "grid", "concentric", "hexagon", "wave", "none"]

/-- `LogoGenerator.AVAILABLE_EFFECTS`. -/
def AVAILABLE_EFFECTS : List String :=
  ["gradient_bg", "radial_gradient", "glow", "particles", "lens_flare",
   "shadow", "none"]

/-- `LogoGenerator.AVAILABLE_HARMONY` (the `HARMONY_RULES` keys in
insertion order). -/
def AVAILABLE_HARMONY : List String :=
  ["complementary", "triadic", "analogous", "split_complementary",
   "tetradic", "monochromatic"]

/-- `LogoGenerator.AVAILABLE_PRESETS` (the `PRESET_PALETTES` keys in
insertion order). -/
def AVAILABLE_PRESETS : List String :=
  ["sunset", "ocean", "forest", "neon", "pastel", "corporate", "retro",
   "dark_elegance"]

/-- `LogoGenerator._apply_background` (stage 1). -/
def apply_background (w h : ℕ) (cfg : Config) : List DrawOp :=
  let effects := cfg.effects.getD []
  let colors := cfg.colors.getD [[2/10, 3/10, 5/10], [1/10, 1/10, 2/10]]
  if "gradient_bg" ∈ effects ∧ 2 ≤ colors.length then
    EffectsEngine.draw_gradient_background w h (colors.getD 0 [])
      (colors.getLastD []) (cfg.gradient_direction.getD "vertical") 50
  else if "radial_gradient" ∈ effects ∧ 2 ≤ colors.length then
    EffectsEngine.draw_radial_gradient ((w : ℚ) / 2, (h : ℚ) / 2)
      ((max w h : ℚ) * (8/10)) (colors.getD 0 []) (colors.getLastD []) 40
  else []

/-- `LogoGenerator._apply_pattern` (stage 2). -/
def apply_pattern (T : TrigOracle) (w h : ℕ) (cfg : Config) : List DrawOp :=
  let pattern := cfg.pattern.getD "none"
  let colors := cfg.colors.getD [[5/10, 5/10, 5/10]]
  let pc := ColorPalette.adjust_brightness (colors.getD 0 []) (5/10)
  let patternColor := pc.take 3 ++ [15/100]
  if pattern = "dots" then
    PatternGenerator.draw_dots w h patternColor 25 2
  else if pattern = "lines" then
    PatternGenerator.draw_lines T w h patternColor 20 1 45
  else if pattern = "grid" then
    PatternGenerator.draw_grid w h patternColor 30 (5/10)
  else if pattern = "concentric" then
    PatternGenerator.draw_concentric_circles ((w : ℚ) / 2) ((h : ℚ) / 2)
      ((max w h : ℚ) * (6/10)) patternColor 10 1
  else if pattern = "hexagon" then
    PatternGenerator.draw_hexagon_pattern T w h patternColor 25 (5/10)
  else if pattern = "wave" then
    PatternGenerator.draw_wave_pattern T w h patternColor 10 (5/100) 1
  else []

/-- `LogoGenerator._apply_pre_effects` (stage 3). -/
def apply_pre_effects (w h : ℕ) (cfg : Config) : List DrawOp :=
  let effects := cfg.effects.getD []
  let colors := cfg.colors.getD [[1, 1, 1]]
  if "glow" ∈ effects then
    EffectsEngine.draw_glow ((w : ℚ) / 2, (h : ℚ) / 2) 30
      (if colors ≠ [] then colors.getD 0 [] else [1, 1, 1]) 8 15
  else []

/-- `LogoGenerator._apply_template` (stage 4): unknown template name falls
back to `minimal_circle`. -/
def apply_template (T : TrigOracle) (w h : ℕ) (cfg : Config) : List DrawOp :=
  let tname := cfg.template.getD "minimal_circle"
  let colors := cfg.colors.getD [[2/10, 4/10, 8/10], [1, 1, 1], [1, 1, 1]]
  let chars := cfg.text.getD ['L', 'O', 'G', 'O']
  let ff := cfg.fontfamily.getD "Arial"
  if tname = "minimal_circle" then LogoTemplate.minimal_circle w h colors chars ff
  else if tname = "shield_badge" then LogoTemplate.shield_badge w h colors chars ff
  else if tname = "geometric_abstract" then
    LogoTemplate.geometric_abstract T w h colors chars ff
  else if tname = "monogram" then LogoTemplate.monogram w h colors chars ff
  else if tname = "tech_hexagon" then LogoTemplate.tech_hexagon T w h colors chars ff
  else if tname = "circular_badge" then
    LogoTemplate.circular_badge T w h colors chars ff
  else LogoTemplate.minimal_circle w h colors chars ff

/-- Loop body of `_apply_extra_shapes`: one random decorative element
(the `"triangle"` choice matches no branch and draws nothing). -/
def extraShapeBody (T : TrigOracle) (w h : ℕ) (colors : List Color) (g : RNG) :
    List DrawOp × RNG :=
  let cx := (w : ℚ) / 2
  let cy := (h : ℚ) / 2
  let m := (min w h : ℚ)
  let a := pyUniform 0 (2 * T.pi) g
  let d := pyUniform (m * (35/100)) (m * (45/100)) a.2
  let x := cx + d.1 * T.cos a.1
  let y := cy + d.1 * T.sin a.1
  let c := pyChoice colors [] d.2
  let al := pyUniform (3/10) (7/10) c.2
  let alphaColor := c.1.take 3 ++ [al.1]
  let st := pyChoice ["circle", "square", "diamond", "triangle"] "circle" al.2
  let sz := pyUniform 3 10 st.2
  if st.1 = "circle" then
    ([DrawOp.circle sz.1 (x, y) (some alphaColor) none 0], sz.2)
  else if st.1 = "square" then
    let ang := pyUniform 0 T.pi sz.2
    ([DrawOp.sq (sz.1 * 2) (x, y) (some alphaColor) ang.1], ang.2)
  else if st.1 = "diamond" then
    ([ShapeFactory.create_diamond sz.1 (x, y) (some alphaColor) none 0], sz.2)
  else ([], sz.2)

/-- `LogoGenerator._apply_extra_shapes` (stage 5). -/
def apply_extra_shapes (T : TrigOracle) (w h : ℕ) (cfg : Config) (g : RNG) :
    List DrawOp × RNG :=
  if cfg.extra_shapes.getD false = true then
    let colors := cfg.colors.getD [[5/10, 5/10, 5/10]]
    let n := pyRandint 3 8 g
    iterRNG (extraShapeBody T w h colors) n.1.toNat n.2
  else ([], g)

/-- `LogoGenerator._apply_text` (stage 6). -/
def apply_text (w h : ℕ) (cfg : Config) : List DrawOp :=
  let subtitle := cfg.subtitle.getD []
  if subtitle = [] then []
  else
    let colors := cfg.colors.getD [[1, 1, 1]]
    let ff := cfg.fontfamily.getD "Arial"
    let cx := (w : ℚ) / 2
    let cy := (h : ℚ) * (82/100)
    let textColor := if colors ≠ [] then colors.getLastD [] else [1, 1, 1]
    let te := cfg.text_effect.getD "none"
    if te = "shadow" then
      TextRenderer.render_text_with_shadow subtitle (cx, cy) 18 ff textColor
        [0, 0, 0] (3, 3) 0
    else if te = "outline" then
      TextRenderer.render_text_with_outline subtitle (cx, cy) 18 ff textColor
        [0, 0, 0] 2 0
    else
      TextRenderer.render_text subtitle (cx, cy) 18 ff textColor 0 "normal"

/-- `LogoGenerator._apply_post_effects` (stage 7). -/
def apply_post_effects (T : TrigOracle) (w h : ℕ) (cfg : Config) (g : RNG) :
    List DrawOp × RNG :=
  let effects := cfg.effects.getD []
  let colors := cfg.colors.getD [[1, 1, 1]]
  let cx := (w : ℚ) / 2
  let cy := (h : ℚ) / 2
  let r1 := if "particles" ∈ effects then
      EffectsEngine.draw_particle_burst T (cx, cy) 40 ((min w h : ℚ) * (45/100))
        colors g
    else ([], g)
  let r2 := if "lens_flare" ∈ effects then
      let fx := pyUniform (-((w : ℚ) * (2/10))) ((w : ℚ) * (2/10)) r1.2
      let fy := pyUniform (-((h : ℚ) * (2/10))) ((h : ℚ) * (2/10)) fx.2
      (EffectsEngine.draw_lens_flare T (cx + fx.1, cy + fy.1) 30 [1, 1, 8/10], fy.2)
    else ([], r1.2)
  (r1.1 ++ r2.1, r2.2)

/-- `LogoGenerator._random_config`. -/
def random_config (g : RNG) : Config × RNG :=
  let hr := pyChoice AVAILABLE_HARMONY "triadic" g
  let cs := ColorPalette.generate_harmonious none hr.1 (7/10) (17/20) hr.2
  let colors := cs.1
  let tm := pyChoice AVAILABLE_TEMPLATES "minimal_circle" cs.2
  let pt := pyChoice AVAILABLE_PATTERNS "none" tm.2
  let k := pyRandint 0 3 pt.2
  let efs := pySample k.1.toNat AVAILABLE_EFFECTS k.2
  let ffq := pyChoice ["Arial", "Helvetica", "Georgia", "Verdana"] "Arial" efs.2
  let te := pyChoice ["none", "shadow", "outline"] "none" ffq.2
  let ex := pyChoice [true, false] true te.2
  let gd := pyChoice ["vertical", "horizontal", "diagonal"] "vertical" ex.2
  ({bg_color := some (ColorPalette.adjust_brightness (colors.getD 0 []) (3/10)),
    colors := some colors,
    template := some tm.1,
    pattern := some pt.1,
    effects := some efs.1,
    text := some ['L', 'O', 'G', 'O'],
    subtitle := some [],
    fontfamily := some ffq.1,
    fontsize := some 36,
    text_effect := some te.1,
    extra_shapes := some ex.1,
    gradient_direction := some gd.1}, gd.2)

/-- The painted raster target: dimensions, initial background color and the
draw-call trace in paint order. -/
structure Canvas where
  width : ℕ
  height : ℕ
  bg : Color
  ops : List DrawOp
deriving DecidableEq

/-- The engine instance state: canvas dimensions plus the last stored
config (`self.width`, `self.height`, `self.config`). -/
structure GenState where
  width : ℕ
  height : ℕ
  config : Config
deriving DecidableEq

/-- `LogoGenerator.generate`: the fixed seven-stage pipeline.  Returns the
painted canvas, the updated instance state and the advanced random
stream. -/
def generate (T : TrigOracle) (st : GenState) (ocfg : Option Config) (g : RNG) :
    Canvas × GenState × RNG :=
  let c0 := match ocfg with
    | none => random_config g
    | some c => (c, g)
  let cfg := c0.1
  let g0 := c0.2
  let st' : GenState := ⟨st.width, st.height, cfg⟩
  let bg := cfg.bg_color.getD [1/10, 1/10, 15/100]
  let t1 := apply_background st.width st.height cfg
  let t2 := apply_pattern T st.width st.height cfg
  let t3 := apply_pre_effects st.width st.height cfg
  let t4 := apply_template T st.width st.height cfg
  let r5 := apply_extra_shapes T st.width st.height cfg g0
  let t6 := apply_text st.width st.height cfg
  let r7 := apply_post_effects T st.width st.height cfg r5.2
  (⟨st.width, st.height, bg, t1 ++ t2 ++ t3 ++ t4 ++ r5.1 ++ t6 ++ r7.1⟩,
   st', r7.2)

end LogoGenerator

namespace LogoComposer

/-- `LogoComposer`: registered layers in insertion order.  Draw callbacks
are abstracted by an arbitrary type `α`; only their identity and
invocation order matter here. -/
structure State (α : Type) where
  width : ℕ
  height : ℕ
  layers : List (α × ℤ)

/-- `LogoComposer.add_layer`: append a `(draw_func, z_index)` pair. -/
def add_layer {α : Type} (c : State α) (f : α) (z : ℤ) : State α :=
  ⟨c.width, c.height, c.layers ++ [(f, z)]⟩

/-- A whole sequence of `add_layer` calls. -/
def addLayers {α : Type} (c : State α) (seq : List (α × ℤ)) : State α :=
  seq.foldl (fun acc p => add_layer acc p.1 p.2) c

/-- The comparison key of `sorted(self.layers, key=lambda l: l["z_index"])`. -/
def zLE {α : Type} (a b : α × ℤ) : Prop := a.2 ≤ b.2

instance {α : Type} : DecidableRel (zLE (α := α)) :=
  fun a b => Int.decLe a.2 b.2

instance {α : Type} : IsTotal (α × ℤ) zLE :=
  ⟨fun a b => le_total a.2 b.2⟩

instance {α : Type} : IsTrans (α × ℤ) zLE :=
  ⟨fun _ _ _ h1 h2 => le_trans h1 h2⟩

/-- The stably z-sorted layer list of `compose` (Python's `sorted` is a
stable sort, so it is extensionally `List.insertionSort` on the key
order, which is proved stable below). -/
def sortedLayers {α : Type} (c : State α) : List (α × ℤ) :=
  List.insertionSort zLE c.layers

/-- `LogoComposer.compose`: a fresh canvas of the given background color
plus the callbacks in invocation order. -/
def compose {α : Type} (c : State α) (bgColor : Color) : Color × List α :=
  (bgColor, (sortedLayers c).map Prod.fst)

end LogoComposer

/-- A Python value as handled by `save_config`/`load_config`: scalars,
tuples and lists.  (`num` covers both ints and floats: JSON round-trips
both unchanged.) -/
inductive PyVal where
  | str : String → PyVal
  | num : ℚ → PyVal
  | boolean : Bool → PyVal
  | tup : List PyVal → PyVal
  | arr : List PyVal → PyVal

mutual

/-- `json.dump` followed by `json.load`: JSON has no tuple type, so every
Python tuple is serialized as an array and read back as a list; all other
values round-trip unchanged. -/
def jsonRT : PyVal → PyVal
  | .str s => .str s
  | .num q => .num q
  | .boolean b => .boolean b
  | .tup l => .arr (jsonRTList l)
  | .arr l => .arr (jsonRTList l)

/-- `jsonRT` mapped over a list of values. -/
def jsonRTList : List PyVal → List PyVal
  | [] => []
  | x :: xs => jsonRT x :: jsonRTList xs

end

/-- `list(v) if isinstance(v, tuple) else v`. -/
def tupToArr : PyVal → PyVal
  | .tup m => .arr m
  | y => y

/-- `tuple(v) if isinstance(v, list) else v`. -/
def arrToTup : PyVal → PyVal
  | .arr m => .tup m
  | y => y

/-- The per-entry normalization of `save_config`: a tuple value becomes a
list; a list value has tuple entries become lists (one level deep). -/
def serializeVal : PyVal → PyVal
  | .tup l => .arr l
  | .arr l => .arr (l.map tupToArr)
  | v => v

/-- One entry of `save_config` composed with the JSON round trip. -/
def saveEntry (kv : String × PyVal) : String × PyVal :=
  (kv.1, jsonRT (serializeVal kv.2))

/-- `LogoGenerator.save_config` composed with the JSON round trip: the
value tree that `json.load` hands back to `load_config`. -/
def save_config (cfg : List (String × PyVal)) : List (String × PyVal) :=
  cfg.map saveEntry

/-- One entry of `load_config`: re-tuple `bg_color` (one level) and the
entries of `colors` (one level). -/
def loadEntry (kv : String × PyVal) : String × PyVal :=
  if kv.1 = "bg_color" then (kv.1, arrToTup kv.2)
  else if kv.1 = "colors" then
    (kv.1, match kv.2 with
      | .arr l => .arr (l.map arrToTup)
      | v => v)
  else kv

/-- `LogoGenerator.load_config`. -/
def load_config (file : List (String × PyVal)) : List (String × PyVal) :=
  file.map loadEntry

/-- Scalar (JSON-atomic) values. -/
def isScalar : PyVal → Bool
  | .str _ => true
  | .num _ => true
  | .boolean _ => true
  | _ => false

/-- Numeric leaf. -/
def isNum : PyVal → Bool
  | .num _ => true
  | _ => false

/-- An RGB-style color value: a tuple of numbers. -/
def isColorTup : PyVal → Bool
  | .tup l => l.all isNum
  | _ => false

/-- The config shapes covered by the round-trip claim: `bg_color` is a
color tuple, `colors` is a list of exactly 3 color tuples, and every
other entry is a scalar or a list of scalars. -/
def goodEntry (kv : String × PyVal) : Bool :=
  if kv.1 = "bg_color" then isColorTup kv.2
  else if kv.1 = "colors" then
    match kv.2 with
    | .arr l => l.all isColorTup && l.length == 3
    | _ => false
  else
    isScalar kv.2 ||
      (match kv.2 with | .arr l => l.all isScalar | _ => false)

/-- Evaluate a floor from explicit bounds. -/
theorem floor_eq_of_bounds (q : ℚ) (n : ℤ) (h1 : (n : ℚ) ≤ q) (h2 : q < n + 1) :
    ⌊q⌋ = n :=
  Int.floor_eq_iff.mpr ⟨h1, by exact_mod_cast h2⟩

/-- `pyMod` by 1 subtracts the floor. -/
theorem pyMod_one (a : ℚ) : pyMod a 1 = a - ⌊a⌋ := by
  simp [pyMod]

/-- `pyTrunc` agrees with the floor on nonnegative arguments. -/
theorem pyTrunc_eq_floor (q : ℚ) (h : 0 ≤ q) : pyTrunc q = ⌊q⌋ := by
  simp [pyTrunc, h]

/-- The HSV conversion exactly as the specification words it: sector index
`⌊h*6⌋ mod 6`, fractional part `f = h*6 - ⌊h*6⌋`, certainty values
`p = v(1-s)`, `q = v(1-f*s)`, `t = v(1-(1-f)*s)`, and the six-way channel
assignment.  (Modelled from the spec for comparison with the code's
`hsv_to_rgb`.) -/
def hsvSpec (h s v : ℚ) : Color :=
  let f := h * 6 - (⌊h * 6⌋ : ℚ)
  let p := v * (1 - s)
  let q := v * (1 - f * s)
  let t := v * (1 - (1 - f) * s)
  let i := ⌊h * 6⌋ % 6
  if i = 0 then [v, t, p]
  else if i = 1 then [q, v, p]
  else if i = 2 then [p, v, t]
  else if i = 3 then [p, q, v]
  else if i = 4 then [t, p, v]
  else [v, p, q]

/-- Claim C6: `hsv_to_rgb` implements the standard 6-sector HSV-to-RGB
conversion — for every nonnegative hue (in particular all of `[0,1)`) it
agrees with the spec's floor/mod formulation, and it maps `(0,1,1)` to
pure red, `(1/3,1,1)` to pure green and `(2/3,1,1)` to pure blue. -/
theorem hsv_to_rgb_standard (h s v : ℚ) (h0 : 0 ≤ h) :
    ColorPalette.hsv_to_rgb h s v = hsvSpec h s v
    ∧ ColorPalette.hsv_to_rgb 0 1 1 = [1, 0, 0]
    ∧ ColorPalette.hsv_to_rgb (1/3) 1 1 = [0, 1, 0]
    ∧ ColorPalette.hsv_to_rgb (2/3) 1 1 = [0, 0, 1] := by
  refine ⟨?_, ?_, ?_, ?_⟩
  · have h6 : (0 : ℚ) ≤ h * 6 := by positivity
    simp only [ColorPalette.hsv_to_rgb, hsvSpec, pyTrunc_eq_floor _ h6]
  · have h1 : pyTrunc ((0 : ℚ) * 6) = 0 := by
      rw [pyTrunc_eq_floor _ (by norm_num)]
      exact floor_eq_of_bounds _ 0 (by norm_num) (by norm_num)
    simp only [ColorPalette.hsv_to_rgb, h1]
    norm_num
  · have h1 : pyTrunc ((1/3 : ℚ) * 6) = 2 := by
      rw [pyTrunc_eq_floor _ (by norm_num)]
      exact floor_eq_of_bounds _ 2 (by norm_num) (by norm_num)
    simp only [ColorPalette.hsv_to_rgb, h1]
    norm_num
  · have h1 : pyTrunc ((2/3 : ℚ) * 6) = 4 := by
      rw [pyTrunc_eq_floor _ (by norm_num)]
      exact floor_eq_of_bounds _ 4 (by norm_num) (by norm_num)
    simp only [ColorPalette.hsv_to_rgb, h1]
    norm_num

/-- Witness for C6 at the concrete hue `2/3`. -/
theorem hsv_to_rgb_standard_witness :
    ColorPalette.hsv_to_rgb (2/3) 1 1 = hsvSpec (2/3) 1 1
    ∧ ColorPalette.hsv_to_rgb 0 1 1 = [1, 0, 0]
    ∧ ColorPalette.hsv_to_rgb (1/3) 1 1 = [0, 1, 0]
    ∧ ColorPalette.hsv_to_rgb (2/3) 1 1 = [0, 0, 1] :=
  hsv_to_rgb_standard (2/3) 1 1 (by norm_num)

/-- Claim C7: for every base hue `h ∈ [0,1)`, `generate_harmonious` with
rule `"complementary"` returns exactly 2 colors, base hue first: the hue
list fed to the conversion is `[h, (h+0.5) mod 1]`, those two hues differ
by `0.5 mod 1.0`, and the returned colors are the HSV conversions of
exactly those two hues under some (arbitrary) perturbed saturations and
values drawn from the stream. -/
theorem generate_harmonious_complementary (h sat val : ℚ) (g : RNG)
    (h0 : 0 ≤ h) (h1 : h < 1) :
    (ColorPalette.generate_harmonious (some h) "complementary" sat val g).1.length = 2
    ∧ ColorPalette.harmonyOffsets "complementary" h = [pyMod (h + 1/2) 1]
    ∧ pyMod (pyMod (h + 1/2) 1 - h) 1 = 1/2
    ∧ (∃ s1 v1 s2 v2 : ℚ,
        (ColorPalette.generate_harmonious (some h) "complementary" sat val g).1 =
          [ColorPalette.hsv_to_rgb h s1 v1,
           ColorPalette.hsv_to_rgb (pyMod (h + 1/2) 1) s2 v2]) := by
  refine ⟨rfl, rfl, ?_, ⟨_, _, _, _, rfl⟩⟩
  by_cases hc : h < 1/2
  · have hf : ⌊h + 1/2⌋ = 0 := floor_eq_of_bounds _ 0 (by linarith) (by push_cast; linarith)
    have hf2 : ⌊(1/2 : ℚ)⌋ = 0 := floor_eq_of_bounds _ 0 (by norm_num) (by norm_num)
    rw [pyMod_one, pyMod_one, hf]
    have : h + 1/2 - (0 : ℤ) - h = 1/2 := by push_cast; ring
    rw [this, hf2]
    norm_num
  · have hf : ⌊h + 1/2⌋ = 1 := floor_eq_of_bounds _ 1 (by push_cast; linarith) (by push_cast; linarith)
    have hf2 : ⌊(-(1/2) : ℚ)⌋ = -1 := floor_eq_of_bounds _ (-1) (by norm_num) (by norm_num)
    rw [pyMod_one, pyMod_one, hf]
    have : h + 1/2 - (1 : ℤ) - h = -(1/2) := by push_cast; ring
    rw [this, hf2]
    push_cast
    ring

/-- Witness for C7 at the concrete base hue `3/4`. -/
theorem generate_harmonious_complementary_witness :
    (ColorPalette.generate_harmonious (some (3/4)) "complementary" (7/10) (17/20)
      ⟨fun _ => 0, 0⟩).1.length = 2
    ∧ ColorPalette.harmonyOffsets "complementary" (3/4) = [pyMod (3/4 + 1/2) 1]
    ∧ pyMod (pyMod (3/4 + 1/2) 1 - 3/4) 1 = 1/2
    ∧ (∃ s1 v1 s2 v2 : ℚ,
        (ColorPalette.generate_harmonious (some (3/4)) "complementary" (7/10) (17/20)
          ⟨fun _ => 0, 0⟩).1 =
          [ColorPalette.hsv_to_rgb (3/4) s1 v1,
           ColorPalette.hsv_to_rgb (pyMod (3/4 + 1/2) 1) s2 v2]) :=
  generate_harmonious_complementary (3/4) (7/10) (17/20) ⟨fun _ => 0, 0⟩
    (by norm_num) (by norm_num)

namespace LogoComposer

/-- Inserting an element whose z-index misses the key leaves the
key-filter unchanged. -/
theorem filter_orderedInsert_ne {α : Type} (x : α × ℤ) (l : List (α × ℤ))
    (k : ℤ) (hx : x.2 ≠ k) :
    (List.orderedInsert zLE x l).filter (fun q => q.2 == k) =
      l.filter (fun q => q.2 == k) := by
  induction l with
  | nil => simp [List.orderedInsert, hx]
  | cons y ys ih =>
    by_cases hr : zLE x y
    · simp [List.orderedInsert, hr, hx]
    · simp only [List.orderedInsert, if_neg hr, List.filter_cons]
      rw [ih]

/-- Inserting an element whose z-index hits the key of a z-sorted list
prepends it to the key-filter: all equal keys already in the list sit at
or after the insertion point. -/
theorem filter_orderedInsert_eq {α : Type} (x : α × ℤ) (l : List (α × ℤ))
    (k : ℤ) (hs : List.Sorted zLE l) (hx : x.2 = k) :
    (List.orderedInsert zLE x l).filter (fun q => q.2 == k) =
      x :: l.filter (fun q => q.2 == k) := by
  induction l with
  | nil => simp [List.orderedInsert, hx]
  | cons y ys ih =>
    by_cases hr : zLE x y
    · simp [List.orderedInsert, hr, hx]
    · have hy : ¬ (y.2 = k) := by
        intro hyk
        exact hr (by simp only [zLE]; rw [hx, ← hyk])
      simp only [List.orderedInsert, if_neg hr, List.filter_cons]
      have : (y.2 == k) = false := by simp [hy]
      rw [this]
      simp only [Bool.false_eq_true, if_false]
      exact ih hs.of_cons

/-- Stability of the z-index sort: for every z value, the sorted list
restricted to that z equals the insertion-order list restricted to it. -/
theorem filter_insertionSort {α : Type} (l : List (α × ℤ)) (k : ℤ) :
    (List.insertionSort zLE l).filter (fun q => q.2 == k) =
      l.filter (fun q => q.2 == k) := by
  induction l with
  | nil => rfl
  | cons a l ih =>
    show (List.orderedInsert zLE a (List.insertionSort zLE l)).filter _ = _
    by_cases ha : a.2 = k
    · rw [filter_orderedInsert_eq a _ k (List.sorted_insertionSort zLE l) ha, ih]
      simp [List.filter_cons, ha]
    · rw [filter_orderedInsert_ne a _ k ha, ih]
      simp [List.filter_cons, ha]

/-- `addLayers` starting from an empty compositor registers exactly the
given sequence, in order. -/
theorem addLayers_layers {α : Type} (c : State α) (seq : List (α × ℤ)) :
    (addLayers c seq).layers = c.layers ++ seq := by
  induction seq generalizing c with
  | nil => simp [addLayers]
  | cons p ps ih =>
    show (addLayers (add_layer c p.1 p.2) ps).layers = _
    rw [ih]
    simp [add_layer]

end LogoComposer

/-- Claim C4: for every sequence of `add_layer` calls on a fresh
compositor, `compose` invokes the registered draw callbacks sorted by
ascending z-index with a stable sort — the key sequence it runs is
z-sorted, and for every z value the callbacks with that z run in
insertion order; in particular layers added with z-indices `[3,1,2]`
execute in z-order `[1,2,3]`. -/
theorem compose_stable_z_order :
    (∀ (w h : ℕ) (seq : List (ℕ × ℤ)),
      (LogoComposer.addLayers (LogoComposer.State.mk w h []) seq).layers = seq
      ∧ List.Sorted LogoComposer.zLE
          (LogoComposer.sortedLayers (LogoComposer.addLayers
            (LogoComposer.State.mk (α := ℕ) w h []) seq))
      ∧ (∀ k : ℤ,
          (LogoComposer.sortedLayers (LogoComposer.addLayers
            (LogoComposer.State.mk (α := ℕ) w h []) seq)).filter
              (fun q => q.2 == k) =
            seq.filter (fun q => q.2 == k))
      ∧ (LogoComposer.compose (LogoComposer.addLayers
          (LogoComposer.State.mk (α := ℕ) w h []) seq) [1/10, 1/10, 15/100]).2 =
          (List.insertionSort LogoComposer.zLE seq).map Prod.fst)
    ∧ (LogoComposer.compose (LogoComposer.addLayers
        (LogoComposer.State.mk (α := ℕ) 500 500 [])
        [(10, 3), (20, 1), (30, 2)]) [1/10, 1/10, 15/100]).2 = [20, 30, 10] := by
  constructor
  · intro w h seq
    have hl : (LogoComposer.addLayers (LogoComposer.State.mk (α := ℕ) w h []) seq).layers
        = seq := by
      rw [LogoComposer.addLayers_layers]
      rfl
    refine ⟨hl, ?_, ?_, ?_⟩
    · exact List.sorted_insertionSort _ _
    · intro k
      rw [LogoComposer.sortedLayers, hl, LogoComposer.filter_insertionSort]
    · rw [LogoComposer.compose, LogoComposer.sortedLayers, hl]
  · rfl

/-- The text runs drawn by a trace, in paint order. -/
def drawnTextRuns (ops : List DrawOp) : List (List Char) :=
  ops.filterMap (fun op => match op with
    | .textOp chars _ _ _ _ _ _ => some chars
    | _ => none)

/-- Claim C10: for every text argument, the monogram template draws
exactly one text run, namely `text[:2]` — at most the first two
characters; anything beyond the second character is never drawn. -/
theorem monogram_draws_first_two_chars (w h : ℕ) (colors : List Color)
    (chars : List Char) (ff : String) :
    drawnTextRuns (LogoTemplate.monogram w h colors chars ff) = [chars.take 2]
    ∧ (chars.take 2).length ≤ 2
    ∧ ∀ run ∈ drawnTextRuns (LogoTemplate.monogram w h colors chars ff),
        run.length ≤ 2 := by
  refine ⟨rfl, ?_, ?_⟩
  · rw [List.length_take]
    exact min_le_left _ _
  · intro run hrun
    have : run = chars.take 2 := by
      simpa [drawnTextRuns, LogoTemplate.monogram] using hrun
    rw [this, List.length_take]
    exact min_le_left _ _

/-- JSON round trip is the identity on scalar values. -/
theorem jsonRT_scalar (v : PyVal) (h : isScalar v = true) : jsonRT v = v := by
  cases v <;> simp [isScalar] at h <;> rfl

/-- JSON round trip is the identity on lists of scalars. -/
theorem jsonRTList_scalars (l : List PyVal) (h : l.all isScalar = true) :
    jsonRTList l = l := by
  induction l with
  | nil => rfl
  | cons x xs ih =>
    rw [List.all_cons, Bool.and_eq_true] at h
    rw [jsonRTList, jsonRT_scalar x h.1, ih h.2]

/-- JSON round trip is the identity on lists of numbers. -/
theorem jsonRTList_nums (l : List PyVal) (h : l.all isNum = true) :
    jsonRTList l = l := by
  refine jsonRTList_scalars l ?_
  rw [List.all_eq_true] at h ⊢
  intro x hx
  have := h x hx
  cases x <;> simp [isNum] at this <;> rfl

/-- `tupToArr` is the identity on scalars. -/
theorem tupToArr_scalar (v : PyVal) (h : isScalar v = true) : tupToArr v = v := by
  cases v <;> simp [isScalar] at h <;> rfl

/-- One `colors` entry survives the save/serialize/load cycle. -/
theorem color_entry_roundtrip (c : PyVal) (h : isColorTup c = true) :
    arrToTup (jsonRT (tupToArr c)) = c := by
  cases c with
  | tup m =>
    simp only [isColorTup] at h
    simp only [tupToArr, jsonRT, arrToTup]
    rw [jsonRTList_nums m h]
  | str s => simp [isColorTup] at h
  | num q => simp [isColorTup] at h
  | boolean b => simp [isColorTup] at h
  | arr l => simp [isColorTup] at h


/-- `serializeVal` is the identity on scalars. -/
theorem serializeVal_scalar (v : PyVal) (h : isScalar v = true) :
    serializeVal v = v := by
  cases v <;> simp [isScalar] at h <;> rfl

/-- `tupToArr` maps color tuples to arrays that `jsonRT` fixes. -/
theorem jsonRTList_color_arrays (l : List PyVal) (h : l.all isColorTup = true) :
    jsonRTList (l.map tupToArr) = l.map tupToArr := by
  induction l with
  | nil => rfl
  | cons c cs ih =>
    rw [List.all_cons, Bool.and_eq_true] at h
    rw [List.map_cons, jsonRTList]
    cases c with
    | tup m =>
      simp only [isColorTup] at h
      simp only [tupToArr, jsonRT]
      rw [jsonRTList_nums m h.1, ih h.2]
    | str s => simp [isColorTup] at h
    | num q => simp [isColorTup] at h
    | boolean b => simp [isColorTup] at h
    | arr x => simp [isColorTup] at h

/-- Re-tupling undoes de-tupling on color tuples. -/
theorem map_arrToTup_tupToArr (l : List PyVal) (h : l.all isColorTup = true) :
    (l.map tupToArr).map arrToTup = l := by
  induction l with
  | nil => rfl
  | cons c cs ih =>
    rw [List.all_cons, Bool.and_eq_true] at h
    rw [List.map_cons, List.map_cons, ih h.2]
    have h1 := h.1
    cases c with
    | tup m => rfl
    | str s => simp [isColorTup] at h1
    | num q => simp [isColorTup] at h1
    | boolean b => simp [isColorTup] at h1
    | arr x => simp [isColorTup] at h1

/-- `tupToArr` is the identity on lists of scalars. -/
theorem map_tupToArr_scalars (l : List PyVal) (h : l.all isScalar = true) :
    l.map tupToArr = l := by
  induction l with
  | nil => rfl
  | cons x xs ih =>
    rw [List.all_cons, Bool.and_eq_true] at h
    rw [List.map_cons, tupToArr_scalar x h.1, ih h.2]

/-- One well-shaped config entry survives the save/load round trip. -/
theorem entry_roundtrip (kv : String × PyVal) (h : goodEntry kv = true) :
    loadEntry (saveEntry kv) = kv := by
  obtain ⟨k, v⟩ := kv
  by_cases hbg : k = "bg_color"
  · subst hbg
    cases v with
    | tup m =>
      have hm : m.all isNum = true := h
      have hs : saveEntry ("bg_color", PyVal.tup m) =
          ("bg_color", PyVal.arr (jsonRTList m)) := by
        simp only [saveEntry, serializeVal, jsonRT]
      rw [hs, jsonRTList_nums m hm]
      rfl
    | str s => simp [goodEntry, isColorTup] at h
    | num q => simp [goodEntry, isColorTup] at h
    | boolean b => simp [goodEntry, isColorTup] at h
    | arr l => simp [goodEntry, isColorTup] at h
  · by_cases hco : k = "colors"
    · subst hco
      cases v with
      | arr l =>
        have hall : (l.all isColorTup && (l.length == 3)) = true := h
        rw [Bool.and_eq_true] at hall
        have hs : saveEntry ("colors", PyVal.arr l) =
            ("colors", PyVal.arr (jsonRTList (l.map tupToArr))) := by
          simp only [saveEntry, serializeVal, jsonRT]
        rw [hs, jsonRTList_color_arrays l hall.1]
        show ("colors", PyVal.arr ((l.map tupToArr).map arrToTup)) = _
        rw [map_arrToTup_tupToArr l hall.1]
      | tup m => simp [goodEntry] at h
      | str s => simp [goodEntry] at h
      | num q => simp [goodEntry] at h
      | boolean b => simp [goodEntry] at h
    · rw [goodEntry, if_neg hbg, if_neg hco, Bool.or_eq_true] at h
      have hload : ∀ v' : PyVal, loadEntry (k, v') = (k, v') := by
        intro v'
        rw [loadEntry, if_neg hbg, if_neg hco]
      rcases h with hs | harr
      · rw [saveEntry, serializeVal_scalar v hs, jsonRT_scalar v hs]
        exact hload v
      · cases v with
        | arr l =>
          simp only [saveEntry, serializeVal, jsonRT]
          rw [map_tupToArr_scalars l harr, jsonRTList_scalars l harr]
          exact hload _
        | str s => simp at harr
        | num q => simp at harr
        | boolean b => simp at harr
        | tup m => simp at harr

/-- Claim C3: for every config whose `bg_color` is a color tuple, whose
`colors` is a 3-entry list of color tuples, and whose other entries are
scalars or lists of scalars, `save_config` followed by `load_config`
reproduces an equal config — the tuple/list color normalization is
lossless under the round trip. -/
theorem save_load_config_roundtrip (cfg : List (String × PyVal))
    (h : cfg.all goodEntry = true) :
    load_config (save_config cfg) = cfg := by
  induction cfg with
  | nil => rfl
  | cons kv rest ih =>
    rw [List.all_cons, Bool.and_eq_true] at h
    have hrest := ih h.2
    simp only [save_config, load_config, List.map_cons] at hrest ⊢
    rw [entry_roundtrip kv h.1, hrest]

/-- A concrete well-shaped config (3 color tuples plus a background
color and scalar fields) for the round-trip witness. -/
def demoCfgEntries : List (String × PyVal) :=
  [("bg_color", PyVal.tup [PyVal.num (285/1000), PyVal.num (12/100), PyVal.num (6/100)]),
   ("colors", PyVal.arr
      [PyVal.tup [PyVal.num (95/100), PyVal.num (4/10), PyVal.num (2/10)],
       PyVal.tup [PyVal.num (1/10), PyVal.num (5/10), PyVal.num (8/10)],
       PyVal.tup [PyVal.num (2/10), PyVal.num (7/10), PyVal.num (9/10)]]),
   ("template", PyVal.str "tech_hexagon"),
   ("pattern", PyVal.str "none"),
   ("effects", PyVal.arr [PyVal.str "gradient_bg", PyVal.str "particles"]),
   ("text", PyVal.str "LOGO"),
   ("subtitle", PyVal.str "Ocean"),
   ("fontfamily", PyVal.str "Arial"),
   ("fontsize", PyVal.num 36),
   ("text_effect", PyVal.str "shadow"),
   ("extra_shapes", PyVal.boolean true),
   ("gradient_direction", PyVal.str "vertical")]

/-- Witness for C3 on a concrete 12-key config. -/
theorem save_load_config_roundtrip_witness :
    load_config (save_config demoCfgEntries) = demoCfgEntries :=
  save_load_config_roundtrip demoCfgEntries rfl

namespace LogoGenerator

/-- Stage 1 is a no-op when neither background-gradient effect is
requested. -/
theorem apply_background_noop (w h : ℕ) (cfg : Config)
    (h1 : "gradient_bg" ∉ cfg.effects.getD [])
    (h2 : "radial_gradient" ∉ cfg.effects.getD []) :
    apply_background w h cfg = [] := by
  simp only [apply_background]
  rw [if_neg (fun hc => h1 hc.1), if_neg (fun hc => h2 hc.1)]

/-- Stage 2 is a no-op whenever the pattern name is none of the six
drawing patterns (in particular for `"none"` and for unknown names). -/
theorem apply_pattern_unknown (T : TrigOracle) (w h : ℕ) (cfg : Config)
    (hp : cfg.pattern.getD "none" ∉
      ["dots", "lines", "grid", "concentric", "hexagon", "wave"]) :
    apply_pattern T w h cfg = [] := by
  simp only [List.mem_cons, List.not_mem_nil, not_or] at hp
  obtain ⟨hd, hl, hg, hc, hx, hw, -⟩ := hp
  simp only [apply_pattern]
  rw [if_neg hd, if_neg hl, if_neg hg, if_neg hc, if_neg hx, if_neg hw]

/-- Stage 3 is a no-op when the glow effect is not requested. -/
theorem apply_pre_effects_noop (w h : ℕ) (cfg : Config)
    (h1 : "glow" ∉ cfg.effects.getD []) :
    apply_pre_effects w h cfg = [] := by
  simp only [apply_pre_effects]
  rw [if_neg h1]

/-- Stage 4 falls back to the `minimal_circle` template for every
template name outside the closed catalog. -/
theorem apply_template_unknown (T : TrigOracle) (w h : ℕ) (cfg : Config)
    (ht : cfg.template.getD "minimal_circle" ∉ AVAILABLE_TEMPLATES) :
    apply_template T w h cfg =
      LogoTemplate.minimal_circle w h
        (cfg.colors.getD [[2/10, 4/10, 8/10], [1, 1, 1], [1, 1, 1]])
        (cfg.text.getD ['L', 'O', 'G', 'O']) (cfg.fontfamily.getD "Arial") := by
  simp only [AVAILABLE_TEMPLATES, List.mem_cons, List.not_mem_nil, not_or] at ht
  obtain ⟨h1, h2, h3, h4, h5, h6, -⟩ := ht
  simp only [apply_template]
  rw [if_neg h1, if_neg h2, if_neg h3, if_neg h4, if_neg h5, if_neg h6]

/-- Stage 5 is a no-op (and consumes no randomness) when `extra_shapes`
is falsy. -/
theorem apply_extra_shapes_noop (T : TrigOracle) (w h : ℕ) (cfg : Config)
    (g : RNG) (h1 : cfg.extra_shapes.getD false = false) :
    apply_extra_shapes T w h cfg g = ([], g) := by
  simp only [apply_extra_shapes, h1]
  rw [if_neg (by simp)]

/-- Stage 6 is a no-op when the subtitle is empty. -/
theorem apply_text_noop (w h : ℕ) (cfg : Config)
    (h1 : cfg.subtitle.getD [] = []) :
    apply_text w h cfg = [] := by
  simp only [apply_text, h1, if_true]

/-- Stage 7 is a no-op (and consumes no randomness) when neither
post-effect is requested. -/
theorem apply_post_effects_noop (T : TrigOracle) (w h : ℕ) (cfg : Config)
    (g : RNG) (h1 : "particles" ∉ cfg.effects.getD [])
    (h2 : "lens_flare" ∉ cfg.effects.getD []) :
    apply_post_effects T w h cfg g = ([], g) := by
  simp only [apply_post_effects]
  rw [if_neg h1, if_neg h2]
  rfl

/-- Claim C1: one `generate(config)` call paints exactly the seven stages
in their fixed order — the canvas trace is the concatenation of the
background-gradient, pattern, pre-effect (glow), template, extra-shapes,
subtitle-text and post-effect traces, in that order (so every drawing
operation of a later stage is issued after all operations of every
earlier stage), and each stage contributes the empty trace when its
config-driven condition is false. -/
theorem generate_seven_stage_order (T : TrigOracle) (st : GenState)
    (cfg : Config) (g : RNG) :
    (generate T st (some cfg) g).1.ops =
        apply_background st.width st.height cfg
        ++ apply_pattern T st.width st.height cfg
        ++ apply_pre_effects st.width st.height cfg
        ++ apply_template T st.width st.height cfg
        ++ (apply_extra_shapes T st.width st.height cfg g).1
        ++ apply_text st.width st.height cfg
        ++ (apply_post_effects T st.width st.height cfg
              (apply_extra_shapes T st.width st.height cfg g).2).1
    ∧ ("gradient_bg" ∉ cfg.effects.getD [] →
        "radial_gradient" ∉ cfg.effects.getD [] →
        apply_background st.width st.height cfg = [])
    ∧ (cfg.pattern.getD "none" = "none" →
        apply_pattern T st.width st.height cfg = [])
    ∧ ("glow" ∉ cfg.effects.getD [] →
        apply_pre_effects st.width st.height cfg = [])
    ∧ (cfg.extra_shapes.getD false = false →
        (apply_extra_shapes T st.width st.height cfg g).1 = [])
    ∧ (cfg.subtitle.getD [] = [] →
        apply_text st.width st.height cfg = [])
    ∧ ("particles" ∉ cfg.effects.getD [] → "lens_flare" ∉ cfg.effects.getD [] →
        (apply_post_effects T st.width st.height cfg
          (apply_extra_shapes T st.width st.height cfg g).2).1 = []) := by
  refine ⟨rfl, ?_, ?_, ?_, ?_, ?_, ?_⟩
  · exact fun h1 h2 => apply_background_noop _ _ cfg h1 h2
  · intro hp
    exact apply_pattern_unknown T _ _ cfg (by rw [hp]; decide)
  · exact fun h1 => apply_pre_effects_noop _ _ cfg h1
  · intro h1
    rw [apply_extra_shapes_noop T _ _ cfg g h1]
  · exact fun h1 => apply_text_noop _ _ cfg h1
  · intro h1 h2
    rw [apply_post_effects_noop T _ _ cfg _ h1 h2]

end LogoGenerator

namespace LogoGenerator

/-- Claim C5: `generate` never mutates its input config — the config the
engine holds after the call is the very mapping that was passed in, every
field (including the nested colors list) unchanged — and the call returns
a fully painted canvas: the engine's dimensions, the configured
background color, and the complete seven-stage trace. -/
theorem generate_does_not_mutate_config (T : TrigOracle) (st : GenState)
    (cfg : Config) (g : RNG) :
    ((generate T st (some cfg) g).2.1).config = cfg
    ∧ ((generate T st (some cfg) g).2.1).config.colors = cfg.colors
    ∧ ((generate T st (some cfg) g).2.1).config.bg_color = cfg.bg_color
    ∧ (generate T st (some cfg) g).1.width = st.width
    ∧ (generate T st (some cfg) g).1.height = st.height
    ∧ (generate T st (some cfg) g).1.bg = cfg.bg_color.getD [1/10, 1/10, 15/100]
    ∧ (generate T st (some cfg) g).1.ops =
        apply_background st.width st.height cfg
        ++ apply_pattern T st.width st.height cfg
        ++ apply_pre_effects st.width st.height cfg
        ++ apply_template T st.width st.height cfg
        ++ (apply_extra_shapes T st.width st.height cfg g).1
        ++ apply_text st.width st.height cfg
        ++ (apply_post_effects T st.width st.height cfg
              (apply_extra_shapes T st.width st.height cfg g).2).1 :=
  ⟨rfl, rfl, rfl, rfl, rfl, rfl, rfl⟩

/-- Claim C2: rendering is a pure function of `(config, seed)`.  With the
random source injected as an explicit seeded stream, two successive
`generate` calls with the identical config (here with `pattern="none"`
and `effects=[]`) and the identical stream produce identical canvases and
identical final stream states, even though the first call mutated the
engine's stored config: the painted output depends only on the engine
dimensions, the config and the injected randomness. -/
theorem generate_deterministic_with_seed (T : TrigOracle) (st : GenState)
    (cfg : Config) (g : RNG) (h1 : cfg.pattern = some "none")
    (h2 : cfg.effects = some []) :
    (generate T st (some cfg) g).1 =
      (generate T (generate T st (some cfg) g).2.1 (some cfg) g).1
    ∧ (generate T st (some cfg) g).2.2 =
      (generate T (generate T st (some cfg) g).2.1 (some cfg) g).2.2 :=
  ⟨rfl, rfl⟩

/-- Witness for C2: a concrete config with `pattern="none"`,
`effects=[]`, a concrete engine state and a concrete injected stream. -/
theorem generate_deterministic_with_seed_witness :
    (generate ⟨fun _ => 0, fun _ => 0, 355/113, fun _ => 0⟩ ⟨4, 4, {}⟩
        (some {pattern := some "none", effects := some [],
               extra_shapes := some true}) ⟨fun _ => 1/2, 0⟩).1 =
      (generate ⟨fun _ => 0, fun _ => 0, 355/113, fun _ => 0⟩
        (generate ⟨fun _ => 0, fun _ => 0, 355/113, fun _ => 0⟩ ⟨4, 4, {}⟩
          (some {pattern := some "none", effects := some [],
                 extra_shapes := some true}) ⟨fun _ => 1/2, 0⟩).2.1
        (some {pattern := some "none", effects := some [],
               extra_shapes := some true}) ⟨fun _ => 1/2, 0⟩).1
    ∧ (generate ⟨fun _ => 0, fun _ => 0, 355/113, fun _ => 0⟩ ⟨4, 4, {}⟩
        (some {pattern := some "none", effects := some [],
               extra_shapes := some true}) ⟨fun _ => 1/2, 0⟩).2.2 =
      (generate ⟨fun _ => 0, fun _ => 0, 355/113, fun _ => 0⟩
        (generate ⟨fun _ => 0, fun _ => 0, 355/113, fun _ => 0⟩ ⟨4, 4, {}⟩
          (some {pattern := some "none", effects := some [],
                 extra_shapes := some true}) ⟨fun _ => 1/2, 0⟩).2.1
        (some {pattern := some "none", effects := some [],
               extra_shapes := some true}) ⟨fun _ => 1/2, 0⟩).2.2 :=
  generate_deterministic_with_seed ⟨fun _ => 0, fun _ => 0, 355/113, fun _ => 0⟩
    ⟨4, 4, {}⟩ {pattern := some "none", effects := some [],
                extra_shapes := some true} ⟨fun _ => 1/2, 0⟩ rfl rfl

end LogoGenerator

namespace LogoGenerator

/-- `get_preset` falls back to the corporate palette for unknown names. -/
theorem get_preset_unknown (pr : String) (hpr : pr ∉ AVAILABLE_PRESETS) :
    ColorPalette.get_preset pr = ColorPalette.get_preset "corporate" := by
  simp only [AVAILABLE_PRESETS, List.mem_cons, List.not_mem_nil, not_or] at hpr
  obtain ⟨n1, n2, n3, n4, n5, n6, n7, n8, -⟩ := hpr
  simp only [ColorPalette.get_preset, ColorPalette.PRESET_PALETTES]
  rw [if_neg n1, if_neg n2, if_neg n3, if_neg n4, if_neg n5, if_neg n6,
    if_neg n7, if_neg n8]
  rfl

/-- Claim C8: strings that are not recognized template, pattern, effect
or preset names never fail — an unknown preset name yields the fixed
default (corporate) palette, an unknown template name renders the default
`minimal_circle` template, an unknown pattern name draws the default
(`"none"`) pattern variant, i.e. nothing, and a full `generate` call with
unknown template/pattern/effect names completes with exactly the canvas
of the corresponding defaulted config. -/
theorem unknown_names_fall_back (T : TrigOracle) (st : GenState) (g : RNG)
    (cfg : Config) (tn pn pr : String) (efs : List String)
    (ht : tn ∉ AVAILABLE_TEMPLATES) (hp : pn ∉ AVAILABLE_PATTERNS)
    (he : ∀ e ∈ efs, e ∉ AVAILABLE_EFFECTS) (hpr : pr ∉ AVAILABLE_PRESETS) :
    ColorPalette.get_preset pr = ColorPalette.get_preset "corporate"
    ∧ apply_template T st.width st.height {cfg with template := some tn} =
        LogoTemplate.minimal_circle st.width st.height
          (cfg.colors.getD [[2/10, 4/10, 8/10], [1, 1, 1], [1, 1, 1]])
          (cfg.text.getD ['L', 'O', 'G', 'O']) (cfg.fontfamily.getD "Arial")
    ∧ apply_pattern T st.width st.height {cfg with pattern := some pn} = []
    ∧ (generate T st
        (some {cfg with template := some tn, pattern := some pn, effects := some efs}) g).1 =
      (generate T st
        (some {cfg with template := some "minimal_circle", pattern := some "none", effects := some []}) g).1 := by
  have hpn : pn ∉ ["dots", "lines", "grid", "concentric", "hexagon", "wave"] := by
    intro hmem
    exact hp (by
      simp only [AVAILABLE_PATTERNS, List.mem_cons, List.not_mem_nil] at hmem ⊢
      tauto)
  have hgb : "gradient_bg" ∉ efs := fun hm => he _ hm (by decide)
  have hrg : "radial_gradient" ∉ efs := fun hm => he _ hm (by decide)
  have hgl : "glow" ∉ efs := fun hm => he _ hm (by decide)
  have hpt : "particles" ∉ efs := fun hm => he _ hm (by decide)
  have hlf : "lens_flare" ∉ efs := fun hm => he _ hm (by decide)
  refine ⟨get_preset_unknown pr hpr, apply_template_unknown T _ _ _ ht, ?_, ?_⟩
  · exact apply_pattern_unknown T _ _ _ hpn
  · have e1a : apply_background st.width st.height
        {cfg with template := some tn, pattern := some pn, effects := some efs} = [] :=
      apply_background_noop _ _ _ hgb hrg
    have e1b : apply_background st.width st.height
        {cfg with template := some "minimal_circle", pattern := some "none", effects := some []} = [] :=
      apply_background_noop _ _ _ (by simp) (by simp)
    have e2a : apply_pattern T st.width st.height
        {cfg with template := some tn, pattern := some pn, effects := some efs} = [] :=
      apply_pattern_unknown T _ _ _ hpn
    have e2b : apply_pattern T st.width st.height
        {cfg with template := some "minimal_circle", pattern := some "none", effects := some []} = [] := by
      apply apply_pattern_unknown
      simp
    have e3a : apply_pre_effects st.width st.height
        {cfg with template := some tn, pattern := some pn, effects := some efs} = [] :=
      apply_pre_effects_noop _ _ _ hgl
    have e3b : apply_pre_effects st.width st.height
        {cfg with template := some "minimal_circle", pattern := some "none", effects := some []} = [] :=
      apply_pre_effects_noop _ _ _ (by simp)
    have e4a : apply_template T st.width st.height
        {cfg with template := some tn, pattern := some pn, effects := some efs} =
        LogoTemplate.minimal_circle st.width st.height
          (cfg.colors.getD [[2/10, 4/10, 8/10], [1, 1, 1], [1, 1, 1]])
          (cfg.text.getD ['L', 'O', 'G', 'O']) (cfg.fontfamily.getD "Arial") :=
      apply_template_unknown T _ _ _ ht
    have e4b : apply_template T st.width st.height
        {cfg with template := some "minimal_circle", pattern := some "none", effects := some []} =
        LogoTemplate.minimal_circle st.width st.height
          (cfg.colors.getD [[2/10, 4/10, 8/10], [1, 1, 1], [1, 1, 1]])
          (cfg.text.getD ['L', 'O', 'G', 'O']) (cfg.fontfamily.getD "Arial") := by
      simp [apply_template]
    have e7a : ∀ g' : RNG, apply_post_effects T st.width st.height
        {cfg with template := some tn, pattern := some pn, effects := some efs} g' = ([], g') :=
      fun g' => apply_post_effects_noop _ _ _ _ _ hpt hlf
    have e7b : ∀ g' : RNG, apply_post_effects T st.width st.height
        {cfg with template := some "minimal_circle", pattern := some "none", effects := some []} g' = ([], g') :=
      fun g' => apply_post_effects_noop _ _ _ _ _ (by simp) (by simp)
    show Canvas.mk _ _ _ _ = Canvas.mk _ _ _ _
    rw [Canvas.mk.injEq]
    refine ⟨rfl, rfl, rfl, ?_⟩
    rw [e1a, e1b, e2a, e2b, e3a, e3b, e4a, e4b, e7a, e7b]
    rfl

end LogoGenerator

namespace LogoGenerator

/-- Witness for C8 with the concrete unknown names `"bogus"` (template),
`"zigzag"` (pattern), `"sparkle"` (effect) and `"vaporwave"` (preset). -/
theorem unknown_names_fall_back_witness :
    ColorPalette.get_preset "vaporwave" = ColorPalette.get_preset "corporate"
    ∧ apply_template ⟨fun _ => 0, fun _ => 0, 355/113, fun _ => 0⟩ 4 4
        ({template := some "bogus"} : Config) =
      LogoTemplate.minimal_circle 4 4 [[2/10, 4/10, 8/10], [1, 1, 1], [1, 1, 1]]
        ['L', 'O', 'G', 'O'] "Arial"
    ∧ apply_pattern ⟨fun _ => 0, fun _ => 0, 355/113, fun _ => 0⟩ 4 4
        ({pattern := some "zigzag"} : Config) = []
    ∧ (generate ⟨fun _ => 0, fun _ => 0, 355/113, fun _ => 0⟩ ⟨4, 4, {}⟩
        (some {template := some "bogus", pattern := some "zigzag", effects := some ["sparkle"]})
        ⟨fun _ => 0, 0⟩).1 =
      (generate ⟨fun _ => 0, fun _ => 0, 355/113, fun _ => 0⟩ ⟨4, 4, {}⟩
        (some {template := some "minimal_circle", pattern := some "none", effects := some []})
        ⟨fun _ => 0, 0⟩).1 :=
  unknown_names_fall_back ⟨fun _ => 0, fun _ => 0, 355/113, fun _ => 0⟩
    ⟨4, 4, {}⟩ ⟨fun _ => 0, 0⟩ {} "bogus" "zigzag" "vaporwave" ["sparkle"]
    (by decide) (by decide) (by decide) (by decide)

end LogoGenerator

/-- Squared Euclidean distance between two points. -/
def sqDist (p q : Point) : ℚ := (q.1 - p.1)^2 + (q.2 - p.2)^2

/-- The two endpoints of a two-point polyline stroke. -/
def strokeEnds : DrawOp → Option (Point × Point)
  | .polyline [p, q] _ _ _ _ _ => some (p, q)
  | _ => none

/-- The first stroke drawn by `draw_lines` on a 500×500 canvas with a
unit direction vector `(3/5, 4/5)`. -/
theorem mem_draw_lines_concrete :
    (DrawOp.polyline [((-1000 : ℚ), 0), ((-400 : ℚ), 800)] none none
        (some [1/2, 1/2, 1/2, 15/100]) 1 false) ∈
      PatternGenerator.draw_lines ⟨fun _ => 3/5, fun _ => 4/5, 355/113, fun _ => 0⟩
        500 500 [1/2, 1/2, 1/2, 15/100] 20 1 45 := by
  have h0 : (-1000 : ℤ) ∈ pyRange (-1000) 1000 20 := by
    rw [pyRange]
    refine List.mem_map.mpr ⟨0, by decide, by norm_num⟩
  have key : PatternGenerator.draw_lines
      ⟨fun _ => 3/5, fun _ => 4/5, 355/113, fun _ => 0⟩
      500 500 [1/2, 1/2, 1/2, 15/100] 20 1 45 =
      (pyRange (-1000) 1000 20).map (fun offset =>
        DrawOp.polyline
          [((offset : ℚ), 0),
           ((offset : ℚ) + ((1000 : ℤ) : ℚ) * (3/5), ((1000 : ℤ) : ℚ) * (4/5))]
          none none (some [1/2, 1/2, 1/2, 15/100]) 1 false) := rfl
  rw [key]
  refine (List.mem_map (f := fun offset : ℤ =>
    DrawOp.polyline
      [((offset : ℚ), 0),
       ((offset : ℚ) + ((1000 : ℤ) : ℚ) * (3/5), ((1000 : ℤ) : ℚ) * (4/5))]
      none none (some [1/2, 1/2, 1/2, 15/100]) 1 false)).mpr ⟨(-1000 : ℤ), h0, ?_⟩
  norm_num

/-- Counterexample to C9 as stated: on a 500×500 canvas, the first stroke
of the lines pattern has squared length `1000000 = (2*max(w,h))²`, while
twice the canvas diagonal would require squared length
`4*(500² + 500²) = 2000000`.  (The direction vector `(3/5, 4/5)` used by
the oracle satisfies the unit-circle identity, as real cosine/sine do;
the stroke length is independent of the angle, so the discrepancy is not
an artifact of the chosen direction.) -/
theorem draw_lines_span_counterexample :
    (DrawOp.polyline [((-1000 : ℚ), 0), ((-400 : ℚ), 800)] none none
        (some [1/2, 1/2, 1/2, 15/100]) 1 false) ∈
      PatternGenerator.draw_lines ⟨fun _ => 3/5, fun _ => 4/5, 355/113, fun _ => 0⟩
        500 500 [1/2, 1/2, 1/2, 15/100] 20 1 45
    ∧ ((⟨fun _ => 3/5, fun _ => 4/5, 355/113, fun _ => 0⟩ : TrigOracle).cos
          (radians ⟨fun _ => 3/5, fun _ => 4/5, 355/113, fun _ => 0⟩ 45))^2
        + ((⟨fun _ => 3/5, fun _ => 4/5, 355/113, fun _ => 0⟩ : TrigOracle).sin
          (radians ⟨fun _ => 3/5, fun _ => 4/5, 355/113, fun _ => 0⟩ 45))^2 = 1
    ∧ sqDist ((-1000 : ℚ), 0) ((-400 : ℚ), 800) = 1000000
    ∧ (1000000 : ℚ) ≠ 4 * ((500 : ℚ)^2 + (500 : ℚ)^2) := by
  refine ⟨mem_draw_lines_concrete, by norm_num, by norm_num [sqDist], by norm_num⟩

/-- Claim C9, amended: the lines pattern draws parallel strokes at the
given angle stepped by the given spacing, and every stroke spans twice
the *larger canvas dimension* — each stroke has length `2*max(width,
height)` (not twice the canvas diagonal), whenever the direction vector
supplied by the trig oracle lies on the unit circle. -/
theorem draw_lines_stroke_span (T : TrigOracle) (w h : ℕ) (color : Color)
    (spacing : ℕ) (sw angle : ℚ)
    (hunit : (T.cos (radians T angle))^2 + (T.sin (radians T angle))^2 = 1) :
    ∀ op ∈ PatternGenerator.draw_lines T w h color spacing sw angle,
      ∃ p q : Point, strokeEnds op = some (p, q)
        ∧ sqDist p q = (2 * (max w h : ℚ))^2
        ∧ (q.1 - p.1, q.2 - p.2) =
            (2 * (max w h : ℚ) * T.cos (radians T angle),
             2 * (max w h : ℚ) * T.sin (radians T angle)) := by
  intro op hop
  simp only [PatternGenerator.draw_lines, List.mem_map] at hop
  obtain ⟨offset, -, rfl⟩ := hop
  refine ⟨((offset : ℚ), 0),
    ((offset : ℚ) + (((max w h : ℤ) * 2 : ℤ) : ℚ) * T.cos (radians T angle),
     (((max w h : ℤ) * 2 : ℤ) : ℚ) * T.sin (radians T angle)), rfl, ?_, ?_⟩
  · simp only [sqDist]
    push_cast
    linear_combination (2 * (max (w : ℚ) (h : ℚ)))^2 * hunit
  · rw [Prod.mk.injEq]
    constructor
    · push_cast
      ring
    · push_cast
      ring

/-- Witness for C9's amended statement on the concrete first stroke of a
500×500 lines pattern. -/
theorem draw_lines_stroke_span_witness :
    ∃ p q : Point,
      strokeEnds (DrawOp.polyline [((-1000 : ℚ), 0), ((-400 : ℚ), 800)] none none
          (some [1/2, 1/2, 1/2, 15/100]) 1 false) = some (p, q)
      ∧ sqDist p q = (2 * (max (500 : ℕ) (500 : ℕ) : ℚ))^2
      ∧ (q.1 - p.1, q.2 - p.2) =
          (2 * (max (500 : ℕ) (500 : ℕ) : ℚ)
             * (⟨fun _ => 3/5, fun _ => 4/5, 355/113, fun _ => 0⟩ : TrigOracle).cos
                 (radians ⟨fun _ => 3/5, fun _ => 4/5, 355/113, fun _ => 0⟩ 45),
           2 * (max (500 : ℕ) (500 : ℕ) : ℚ)
             * (⟨fun _ => 3/5, fun _ => 4/5, 355/113, fun _ => 0⟩ : TrigOracle).sin
                 (radians ⟨fun _ => 3/5, fun _ => 4/5, 355/113, fun _ => 0⟩ 45)) :=
  draw_lines_stroke_span ⟨fun _ => 3/5, fun _ => 4/5, 355/113, fun _ => 0⟩
    500 500 [1/2, 1/2, 1/2, 15/100] 20 1 45 (by norm_num)
    (DrawOp.polyline [((-1000 : ℚ), 0), ((-400 : ℚ), 800)] none none
      (some [1/2, 1/2, 1/2, 15/100]) 1 false)
    mem_draw_lines_concrete
